import Mathlib

/-!
# Dynamic fsync (`fs/dynamic_fsync.c`)

A shallow embedding of the dynamic-fsync driver: the two boolean triggers
`suspended` and `dfs_active`, the early-suspend, reboot and panic handlers,
the three sysfs attributes, and module initialisation and teardown.

Every handler is a function from the state of the two triggers to a return
value, the next state, and the list of effects the handler performed, in
program order.  The external routines the driver calls (`mutex_lock`,
`mutex_unlock`, `sync_filesystems`, `pr_info`) are recorded as effects.
-/

namespace DynamicFsync

/-! ## Data model -/

/-- The DFS boolean triggers (`suspended`, `dfs_active`), both `false` at load. -/
structure State where
  suspended : Bool
  dfs_active : Bool
deriving DecidableEq, Repr

/-- The values given by the initialisers of the two globals. -/
def State.init : State :=
  { suspended := false, dfs_active := false }

/-- One observable action of the driver, one per executed C statement or call. -/
inductive Effect where
  | mutex_lock : Effect
  | mutex_unlock : Effect
  | load_dfs_active : Bool → Effect
  | load_suspended : Bool → Effect
  | store_suspended : Bool → Effect
  | store_dfs_active : Bool → Effect
  | sync_filesystems : Int → Effect
  | pr_info : String → Effect
deriving DecidableEq, Repr

/-- The outcome of running a piece of driver code from some state. -/
structure Exec (α : Type) where
  ret : α
  state : State
  trace : List Effect

/-- Driver code: run from a state, produce a value, a state and a trace. -/
def Kernel (α : Type) : Type := State → Exec α

/-- Return a value without touching the state. -/
def Kernel.pure {α : Type} (a : α) : Kernel α :=
  fun s => { ret := a, state := s, trace := [] }

/-- Sequencing of driver code; the traces are concatenated in program order. -/
def Kernel.bind {α β : Type} (m : Kernel α) (f : α → Kernel β) : Kernel β :=
  fun s =>
    let r := m s
    let r2 := f r.ret r.state
    { ret := r2.ret, state := r2.state, trace := r.trace ++ r2.trace }

instance : Monad Kernel where
  pure := Kernel.pure
  bind := Kernel.bind

/-- Record one effect. -/
def emit (e : Effect) : Kernel Unit :=
  fun s => { ret := (), state := s, trace := [e] }

/-- The call `mutex_lock(&fsync_mutex)`; handlers run to completion, so the
mutex is free whenever a handler starts. -/
def mutex_lock : Kernel Unit := emit Effect.mutex_lock

/-- The call `mutex_unlock(&fsync_mutex)`. -/
def mutex_unlock : Kernel Unit := emit Effect.mutex_unlock

/-- The external `sync_filesystems(wait)`. -/
def sync_filesystems (wait : Int) : Kernel Unit := emit (Effect.sync_filesystems wait)

/-- The call `pr_info(msg)`. -/
def pr_info (msg : String) : Kernel Unit := emit (Effect.pr_info msg)

/-- Read of the global `dfs_active`. -/
def load_dfs_active : Kernel Bool :=
  fun s => { ret := s.dfs_active, state := s, trace := [Effect.load_dfs_active s.dfs_active] }

/-- Read of the global `suspended`. -/
def load_suspended : Kernel Bool :=
  fun s => { ret := s.suspended, state := s, trace := [Effect.load_suspended s.suspended] }

/-- The assignment `suspended = v`. -/
def store_suspended (v : Bool) : Kernel Unit :=
  fun s => { ret := (), state := { s with suspended := v }, trace := [Effect.store_suspended v] }

/-- The assignment `dfs_active = v`. -/
def store_dfs_active (v : Bool) : Kernel Unit :=
  fun s => { ret := (), state := { s with dfs_active := v }, trace := [Effect.store_dfs_active v] }

/-! ## Constants of the kernel headers -/

/-- The message tag `TAG`. -/
def TAG : String := "[DFS]: "

def DFS_VERSION_MAJOR : Nat := 3

def DFS_VERSION_MINOR : Nat := 0

/-- The notifier return code `NOTIFY_DONE` of `linux/notifier.h`. -/
def NOTIFY_DONE : Int := 0

/-- The reboot code `SYS_DOWN` of `linux/notifier.h`. -/
def SYS_DOWN : Nat := 1

/-- The reboot code `SYS_HALT` of `linux/notifier.h`. -/
def SYS_HALT : Nat := 2

/-- The reboot code `SYS_POWER_OFF` of `linux/notifier.h`. -/
def SYS_POWER_OFF : Nat := 3

/-- The error number `ENOMEM`. -/
def ENOMEM : Int := 12

/-- Width of `long`, `size_t` and `ssize_t` on the 32-bit ARM target. -/
def BITS_PER_LONG : Nat := 32

/-- Largest value of `ssize_t`. -/
def SSIZE_MAX : Nat := 2 ^ (BITS_PER_LONG - 1) - 1

/-- The conversion of a `size_t` value to the `ssize_t` return type: values
above `SSIZE_MAX` wrap to negative numbers. -/
def ssize_of_size (n : Nat) : Int :=
  let m := n % 2 ^ BITS_PER_LONG
  if m ≤ SSIZE_MAX then (m : Int) else (m : Int) - (2 ^ BITS_PER_LONG : Nat)

/-! ## Lifecycle handlers -/

def dfs_force_flush : Kernel Unit := do
  sync_filesystems 0
  sync_filesystems 1

def dfs_resume : Kernel Unit := do
  mutex_lock
  store_suspended false
  mutex_unlock

def dfs_suspend : Kernel Unit := do
  mutex_lock
  if (← load_dfs_active) then
    store_suspended true
    dfs_force_flush
  mutex_unlock

/-- The panic notifier; `event` and the two pointers are unused. -/
def dfs_panic_event (event : Nat) : Kernel Int := do
  let _ := event
  store_suspended true
  dfs_force_flush
  return NOTIFY_DONE

/-- The reboot notifier. -/
def dfs_notify_sys (code : Nat) : Kernel Int := do
  if code = SYS_DOWN ∨ code = SYS_HALT then
    store_suspended true
    dfs_force_flush
  return NOTIFY_DONE

/-! ## The `active` attribute: parsing the written text

`lib/vsprintf.c` and `lib/ctype.c` are kernel library files outside the driver;
the definitions below follow the kernel's `vsscanf` on the one format the
driver uses, `"%u\n"`.  A buffer is a text with one character per byte. -/

/-- The kernel's `isspace`: the bytes 9 to 13, the blank and byte 160. -/
def isspace (c : Char) : Bool :=
  (9 ≤ c.toNat && c.toNat ≤ 13) || c.toNat == 32 || c.toNat == 160

/-- The kernel's `isdigit`: the bytes of the characters 0 to 9. -/
def isdigit (c : Char) : Bool :=
  48 ≤ c.toNat && c.toNat ≤ 57

/-- The characters of a C string: everything before the first NUL byte. -/
def c_str (buf : List Char) : List Char :=
  buf.takeWhile (fun c => c.toNat != 0)

/-- The kernel's `skip_spaces`. -/
def skip_spaces (str : List Char) : List Char :=
  str.dropWhile isspace

/-- The digit loop of `simple_strtoull` in base 10: the result is accumulated
in an `unsigned long long`, so it wraps modulo `2 ^ 64`; the loop stops at the
first character that is not a decimal digit. -/
def simple_strtoull : List Char → Nat → Nat
  | [], result => result
  | c :: cp, result =>
    if isdigit c then simple_strtoull cp ((result * 10 + (c.toNat - 48)) % 2 ^ 64)
    else result

/-- The kernel's `simple_strtoul` in base 10: `simple_strtoull` truncated to
`unsigned long`. -/
def simple_strtoul (cp : List Char) : Nat :=
  simple_strtoull cp 0 % 2 ^ BITS_PER_LONG

/-- Modelled from the spec: the library routine `sscanf` (`lib/vsprintf.c`, a
kernel file outside the driver), on the call `sscanf(buf, "%u\n", &data)`:
`some data` when it returns 1 and has stored `data`, `none` when it returns 0.  The conversion skips leading
white space, needs a decimal digit next, and stores the number read by
`simple_strtoul`, cast to `unsigned int`; what follows the digits does not
change the return value. -/
def sscanf_u (buf : String) : Option Nat :=
  match skip_spaces (c_str buf.toList) with
  | [] => none
  | digit :: str =>
    if isdigit digit then some (simple_strtoul (digit :: str) % 2 ^ 32)
    else none

/-! ## Sysfs attributes -/

/-- What a `show` callback leaves behind: the text written to `buf` by
`sprintf` and the returned length. -/
structure Shown where
  buf : String
  len : Int
deriving DecidableEq, Repr

/-- The call `sprintf(buf, fmt, ...)` once the text is formatted: it writes the
text and returns its length. -/
def sprintf (text : String) : Shown :=
  { buf := text, len := text.length }

def dfs_active_show : Kernel Shown := do
  let active ← load_dfs_active
  return sprintf (Nat.repr (if active then 1 else 0) ++ "\n")

def dfs_active_store (buf : String) (count : Nat) : Kernel Int := do
  match sscanf_u buf with
  | some data =>
    if data = 1 then
      pr_info (TAG ++ "Enabled!\n")
      store_dfs_active true
    else if data = 0 then
      pr_info (TAG ++ "Disabled!\n")
      store_dfs_active false
    else
      pr_info (TAG ++ "Bad value!\n")
  | none =>
    pr_info (TAG ++ "Unknown input!\n")
  return ssize_of_size count

def dfs_version_show : Kernel Shown := do
  return sprintf ("DFS Version: " ++ Nat.repr DFS_VERSION_MAJOR ++ "." ++
    Nat.repr DFS_VERSION_MINOR ++ "\n")

def dfs_suspended_show : Kernel Shown := do
  let susp ← load_suspended
  return sprintf ("DFS Suspended: " ++ Nat.repr (if susp then 1 else 0) ++ "\n")

/-! ## Sequences of operations -/

/-- The calls the host makes into the driver: the early-suspend hooks, the
reboot and panic notifiers, and the accesses to the three attributes. -/
inductive Op where
  | enter_low_power : Op
  | leave_low_power : Op
  | reboot : Nat → Op
  | panic : Nat → Op
  | active_store : String → Nat → Op
  | active_show : Op
  | version_show : Op
  | suspended_show : Op
deriving DecidableEq, Repr

/-- Run the handler an operation is bound to, dropping its return value. -/
def step : Op → Kernel Unit
  | Op.enter_low_power => dfs_suspend
  | Op.leave_low_power => dfs_resume
  | Op.reboot code => do let _ ← dfs_notify_sys code
  | Op.panic event => do let _ ← dfs_panic_event event
  | Op.active_store buf count => do let _ ← dfs_active_store buf count
  | Op.active_show => do let _ ← dfs_active_show
  | Op.version_show => do let _ ← dfs_version_show
  | Op.suspended_show => do let _ ← dfs_suspended_show

/-- Run a sequence of operations one after the other. -/
def run : List Op → Kernel Unit
  | [] => pure ()
  | op :: ops => do
    step op
    run ops

/-- The `wait` arguments of the `sync_filesystems` calls of a trace, in order. -/
def sync_calls : List Effect → List Int
  | [] => []
  | Effect.sync_filesystems wait :: es => wait :: sync_calls es
  | _ :: es => sync_calls es

/-- A list of `sync_filesystems` arguments that is made of forced flushes only:
each `0` is directly followed by a `1` and nothing else occurs. -/
def flush_pairs : List Int → Bool
  | [] => true
  | 0 :: 1 :: rest => flush_pairs rest
  | _ => false

/-- The number of forced flushes in a trace (one per `sync_filesystems(1)`). -/
def flush_count (t : List Effect) : Nat :=
  (sync_calls t).count 1

/-! ## Module initialisation and teardown -/

/-- What the rest of the kernel holds of the driver: whether each of its three
notifiers is on its chain, the pointer `dfs_kobj` (non-NULL or NULL), the
reference count of the kobject it points to, whether the attribute group
exists, and the messages logged. -/
structure Module where
  early_suspend_registered : Bool
  reboot_notifier_registered : Bool
  panic_notifier_registered : Bool
  dfs_kobj : Bool
  kobj_refcount : Nat
  sysfs_group : Bool
  log : List String
deriving DecidableEq, Repr

/-- The module before `dfs_init`: nothing registered, `dfs_kobj` is NULL. -/
def Module.init : Module :=
  { early_suspend_registered := false, reboot_notifier_registered := false,
    panic_notifier_registered := false, dfs_kobj := false, kobj_refcount := 0,
    sysfs_group := false, log := [] }

/-- The call `kobject_put(dfs_kobj)`: drop one reference; the last one removes
the kobject together with its attribute group. -/
def kobject_put (m : Module) : Module :=
  let refs := m.kobj_refcount - 1
  { m with kobj_refcount := refs, sysfs_group := if refs = 0 then false else m.sysfs_group }

/-- Module initialisation.  `kobject_ok` tells whether `kobject_create_and_add`
returns an object, `sysfs_rc` is what `sysfs_create_group` returns (0 on
success, a negative error number otherwise). -/
def dfs_init (kobject_ok : Bool) (sysfs_rc : Int) (m : Module) : Int × Module :=
  let m := { m with early_suspend_registered := true }
  let m := { m with reboot_notifier_registered := true }
  let m := { m with panic_notifier_registered := true }
  let m := { m with dfs_kobj := kobject_ok, kobj_refcount := if kobject_ok then 1 else 0 }
  if !m.dfs_kobj then
    (-ENOMEM, { m with log := m.log ++ [TAG ++ "kobject create failed!\n"] })
  else
    let sysfs_result := sysfs_rc
    let m := { m with sysfs_group := decide (sysfs_result = 0) }
    let m :=
      if sysfs_result ≠ 0 then
        kobject_put { m with log := m.log ++ [TAG ++ "sysfs create failed!\n"] }
      else m
    (sysfs_result, m)

/-- Module teardown. -/
def dfs_exit (m : Module) : Module :=
  let m := { m with early_suspend_registered := false }
  let m := { m with reboot_notifier_registered := false }
  let m := { m with panic_notifier_registered := false }
  if m.dfs_kobj then kobject_put m else m

/-! ## Events that set `suspended`, and the order of store and flush -/

/-- The events that set `suspended`: an enter-low-power event processed while
`dfs_active` is true (`active` is the flag at that moment), a panic event, and
a reboot event whose code is `SYS_DOWN` or `SYS_HALT`. -/
def setting_event (active : Bool) : Op → Bool
  | Op.enter_low_power => active
  | Op.panic _ => true
  | Op.reboot code => decide (code = SYS_DOWN ∨ code = SYS_HALT)
  | _ => false

/-- The number of setting events of a sequence of operations run from `s`,
each event judged with the value `dfs_active` has when it is processed. -/
def setting_count : State → List Op → Nat
  | _, [] => 0
  | s, op :: ops =>
    (if setting_event s.dfs_active op then 1 else 0) + setting_count (step op s).state ops

/-- Whether, in a trace, every store of `true` to `suspended` comes after a
`sync_filesystems(0)` of the same trace; `started` tells whether a flush has
been started already. -/
def flush_started_before_store : Bool → List Effect → Bool
  | _, [] => true
  | _, Effect.sync_filesystems 0 :: es => flush_started_before_store true es
  | started, Effect.store_suspended true :: es =>
    started && flush_started_before_store started es
  | started, _ :: es => flush_started_before_store started es

/-- The value of a run of decimal digits, read as a natural number. -/
def decimal_value (digits : List Char) : Nat :=
  digits.foldl (fun acc c => acc * 10 + (c.toNat - 48)) 0

/-! ## Auxiliary facts -/

theorem sync_calls_append (a b : List Effect) :
    sync_calls (a ++ b) = sync_calls a ++ sync_calls b := by
  induction a with
  | nil => rfl
  | cons e es ih => cases e <;> simp [sync_calls, ih]

theorem run_cons (op : Op) (ops : List Op) (s : State) :
    run (op :: ops) s =
      { ret := (), state := (run ops (step op s).state).state,
        trace := (step op s).trace ++ (run ops (step op s).state).trace } := rfl

theorem run_append_state (a b : List Op) (s : State) :
    (run (a ++ b) s).state = (run b (run a s).state).state := by
  induction a generalizing s with
  | nil => rfl
  | cons op ops ih => simp only [List.cons_append, run_cons, ih]

theorem run_append_trace (a b : List Op) (s : State) :
    (run (a ++ b) s).trace = (run a s).trace ++ (run b (run a s).state).trace := by
  induction a generalizing s with
  | nil => rfl
  | cons op ops ih => simp only [List.cons_append, run_cons, ih, List.append_assoc]

theorem run_singleton_state (op : Op) (s : State) :
    (run [op] s).state = (step op s).state := rfl

/-- The effect of a write to the `active` attribute on the two triggers. -/
theorem dfs_active_store_state (buf : String) (count : Nat) (s : State) :
    (dfs_active_store buf count s).state =
      { s with dfs_active :=
          if sscanf_u buf = some 1 then true
          else if sscanf_u buf = some 0 then false
          else s.dfs_active } := by
  unfold dfs_active_store
  cases h : sscanf_u buf with
  | none => rfl
  | some d =>
    by_cases h1 : d = 1
    · subst h1; rfl
    · by_cases h0 : d = 0
      · subst h0; rfl
      · simp [h1, h0, bind, Kernel.bind, pure, Kernel.pure, pr_info, emit]

/-- A write to the `active` attribute only logs and stores `dfs_active`. -/
theorem dfs_active_store_sync (buf : String) (count : Nat) (s : State) :
    sync_calls (dfs_active_store buf count s).trace = [] := by
  unfold dfs_active_store
  cases h : sscanf_u buf with
  | none => rfl
  | some d =>
    by_cases h1 : d = 1
    · subst h1; rfl
    · by_cases h0 : d = 0
      · subst h0; rfl
      · simp [h1, h0, bind, Kernel.bind, pure, Kernel.pure, pr_info, emit, sync_calls]

theorem dfs_notify_sys_other (code : Nat) (h : ¬ (code = SYS_DOWN ∨ code = SYS_HALT))
    (s : State) : dfs_notify_sys code s = { ret := NOTIFY_DONE, state := s, trace := [] } := by
  simp [dfs_notify_sys, h, bind, Kernel.bind, pure, Kernel.pure]

theorem dfs_notify_sys_down (code : Nat) (h : code = SYS_DOWN ∨ code = SYS_HALT) (s : State) :
    dfs_notify_sys code s =
      { ret := NOTIFY_DONE, state := { s with suspended := true },
        trace := [Effect.store_suspended true, Effect.sync_filesystems 0,
          Effect.sync_filesystems 1] } := by
  rcases h with rfl | rfl <;> rfl

/-- Every single operation performs either no `sync_filesystems` call or one
forced flush. -/
theorem step_sync_calls (op : Op) (s : State) :
    sync_calls (step op s).trace = [] ∨ sync_calls (step op s).trace = [0, 1] := by
  cases op with
  | enter_low_power =>
    obtain ⟨susp, act⟩ := s
    cases act
    · exact Or.inl rfl
    · exact Or.inr rfl
  | leave_low_power => exact Or.inl rfl
  | reboot code =>
    by_cases h : code = SYS_DOWN ∨ code = SYS_HALT
    · right
      show sync_calls ((dfs_notify_sys code s).trace ++ []) = [0, 1]
      rw [dfs_notify_sys_down code h]
      rfl
    · left
      show sync_calls ((dfs_notify_sys code s).trace ++ []) = []
      rw [dfs_notify_sys_other code h]
      rfl
  | panic event => exact Or.inr rfl
  | active_store buf count =>
    left
    show sync_calls ((dfs_active_store buf count s).trace ++ []) = []
    rw [List.append_nil]
    exact dfs_active_store_sync buf count s
  | active_show => exact Or.inl rfl
  | version_show => exact Or.inl rfl
  | suspended_show => exact Or.inl rfl

theorem flush_pairs_cons (l : List Int) : flush_pairs (0 :: 1 :: l) = flush_pairs l := by
  simp [flush_pairs]

theorem run_flush_pairs (ops : List Op) (s : State) :
    flush_pairs (sync_calls (run ops s).trace) = true := by
  induction ops generalizing s with
  | nil => rfl
  | cons op ops ih =>
    rw [run_cons]
    simp only [sync_calls_append]
    rcases step_sync_calls op s with h | h
    · rw [h]; exact ih _
    · rw [h]
      show flush_pairs (0 :: 1 :: _) = true
      rw [flush_pairs_cons]; exact ih _

theorem run_sync_calls_replicate (ops : List Op) (s : State) :
    ∃ n : Nat, sync_calls (run ops s).trace = (List.replicate n [(0 : Int), 1]).flatten := by
  induction ops generalizing s with
  | nil => exact ⟨0, rfl⟩
  | cons op ops ih =>
    obtain ⟨n, hn⟩ := ih (step op s).state
    rw [run_cons]
    simp only [sync_calls_append, hn]
    rcases step_sync_calls op s with h | h
    · exact ⟨n, by rw [h]; rfl⟩
    · exact ⟨n + 1, by rw [h]; simp [List.replicate_succ]⟩

/-! ## Properties of the driver -/

/-- C1: when `dfs_active` is false, whatever `suspended` is, `dfs_suspend`
leaves both triggers unchanged and makes no call to `sync_filesystems`: it only
takes the mutex, tests the flag and releases the mutex. -/
theorem dfs_suspend_inactive_noop (s : State) (h : s.dfs_active = false) :
    (dfs_suspend s).state.suspended = s.suspended ∧
    (dfs_suspend s).state.dfs_active = s.dfs_active ∧
    sync_calls (dfs_suspend s).trace = [] ∧
    flush_count (dfs_suspend s).trace = 0 ∧
    (dfs_suspend s).trace =
      [Effect.mutex_lock, Effect.load_dfs_active false, Effect.mutex_unlock] := by
  obtain ⟨susp, act⟩ := s
  simp only at h
  subst h
  exact ⟨rfl, rfl, rfl, rfl, rfl⟩

theorem dfs_suspend_inactive_noop_witness :
    (dfs_suspend { suspended := true, dfs_active := false }).state.suspended = true ∧
    sync_calls (dfs_suspend { suspended := true, dfs_active := false }).trace = [] :=
  ⟨(dfs_suspend_inactive_noop { suspended := true, dfs_active := false } rfl).1,
   (dfs_suspend_inactive_noop { suspended := true, dfs_active := false } rfl).2.2.1⟩

/-- C2: after any sequence of operations from the initial state, an
enter-low-power event that finds `dfs_active` true leaves `suspended` true,
and a leave-low-power event leaves `suspended` false. -/
theorem suspended_after_enter_and_leave (ops : List Op) :
    ((run ops State.init).state.dfs_active = true →
      (run (ops ++ [Op.enter_low_power]) State.init).state.suspended = true) ∧
    (run (ops ++ [Op.leave_low_power]) State.init).state.suspended = false := by
  constructor
  · intro h
    rw [run_append_state, run_singleton_state]
    generalize (run ops State.init).state = s at h
    obtain ⟨susp, act⟩ := s
    simp only at h
    subst h
    rfl
  · rw [run_append_state, run_singleton_state]
    rfl

theorem suspended_after_enter_and_leave_witness :
    (run ([Op.active_store "1" 1, Op.leave_low_power] ++ [Op.enter_low_power])
      State.init).state.suspended = true ∧
    (run ([Op.active_store "1" 1, Op.panic 0] ++ [Op.leave_low_power])
      State.init).state.suspended = false :=
  ⟨(suspended_after_enter_and_leave [Op.active_store "1" 1, Op.leave_low_power]).1 (by decide),
   (suspended_after_enter_and_leave [Op.active_store "1" 1, Op.panic 0]).2⟩

/-- C3: in every state the panic handler, and the reboot handler called with
`SYS_DOWN` or `SYS_HALT`, set `suspended`, perform exactly one forced flush
(`sync_filesystems(0)` then `sync_filesystems(1)`), leave `dfs_active` as it
was and return `NOTIFY_DONE`. -/
theorem panic_and_halt_force_flush (s : State) (event code : Nat)
    (h : code = SYS_DOWN ∨ code = SYS_HALT) :
    ((dfs_panic_event event s).state.suspended = true ∧
      (dfs_panic_event event s).trace =
        [Effect.store_suspended true, Effect.sync_filesystems 0, Effect.sync_filesystems 1] ∧
      (dfs_panic_event event s).state.dfs_active = s.dfs_active ∧
      (dfs_panic_event event s).ret = NOTIFY_DONE) ∧
    ((dfs_notify_sys code s).state.suspended = true ∧
      (dfs_notify_sys code s).trace =
        [Effect.store_suspended true, Effect.sync_filesystems 0, Effect.sync_filesystems 1] ∧
      (dfs_notify_sys code s).state.dfs_active = s.dfs_active ∧
      (dfs_notify_sys code s).ret = NOTIFY_DONE) := by
  refine ⟨⟨rfl, rfl, rfl, rfl⟩, ?_⟩
  rw [dfs_notify_sys_down code h]
  exact ⟨rfl, rfl, rfl, rfl⟩

theorem panic_and_halt_force_flush_witness :
    (dfs_panic_event 0 State.init).state.suspended = true ∧
    sync_calls (dfs_panic_event 0 State.init).trace = [0, 1] ∧
    (dfs_notify_sys SYS_HALT State.init).state.suspended = true ∧
    sync_calls (dfs_notify_sys SYS_HALT State.init).trace = [0, 1] ∧
    (dfs_notify_sys SYS_HALT State.init).state.dfs_active = false :=
  have w := panic_and_halt_force_flush State.init 0 SYS_HALT (Or.inr rfl)
  ⟨w.1.1, by rw [w.1.2.1]; rfl, w.2.1, by rw [w.2.2.1]; rfl, w.2.2.2.1⟩

/-- C4, as stated, fails: the texts `01`, `1abc`, ` 1` (leading blank) and
`1` followed by a newline are none of the two literals, yet each of them
switches `dfs_active` from false to true, and `0x` switches it from true to
false. -/
theorem active_store_accepts_other_texts :
    (dfs_active_store "01" 2 State.init).state.dfs_active = true ∧
    (dfs_active_store "1abc" 4 State.init).state.dfs_active = true ∧
    (dfs_active_store " 1" 2 State.init).state.dfs_active = true ∧
    (dfs_active_store "1\n" 2 State.init).state.dfs_active = true ∧
    (dfs_active_store "0x" 2 { suspended := false, dfs_active := true }).state.dfs_active
      = false ∧
    "01" ≠ "1" ∧ "01" ≠ "0" ∧ "1abc" ≠ "1" ∧ "1abc" ≠ "0" ∧ "0x" ≠ "1" ∧ "0x" ≠ "0" := by
  decide

/-- C4, amended: a write to the `active` attribute decides on the number that
`sscanf` with `%u` reads from the start of the text.  When that number is 1
`dfs_active` becomes true, when it is 0 `dfs_active` becomes false; when it is
any other number, or no number can be read, `dfs_active` is left unchanged.
The literals `1` and `0` are read as 1 and 0, and `suspended` is never
touched. -/
theorem active_store_decides_on_parsed_number (buf : String) (count : Nat) (s : State) :
    (dfs_active_store buf count s).state.dfs_active =
      (if sscanf_u buf = some 1 then true
       else if sscanf_u buf = some 0 then false
       else s.dfs_active) ∧
    sscanf_u "1" = some 1 ∧ sscanf_u "0" = some 0 ∧
    (dfs_active_store "1" count s).state.dfs_active = true ∧
    (dfs_active_store "0" count s).state.dfs_active = false ∧
    (dfs_active_store "2" count s).state.dfs_active = s.dfs_active ∧
    (dfs_active_store "on" count s).state.dfs_active = s.dfs_active ∧
    (dfs_active_store "" count s).state.dfs_active = s.dfs_active := by
  refine ⟨?_, by decide, by decide, ?_, ?_, ?_, ?_, ?_⟩
  · rw [dfs_active_store_state]
  · rw [dfs_active_store_state]; rfl
  · rw [dfs_active_store_state]; rfl
  · rw [dfs_active_store_state]; rfl
  · rw [dfs_active_store_state]; rfl
  · rw [dfs_active_store_state]; rfl

/-- C6: with `dfs_active` true, two enter-low-power events in a row leave
`suspended` true after the first and after the second, and the forced flush
runs once per event, twice in total. -/
theorem double_suspend_flushes_twice (s : State) (h : s.dfs_active = true) :
    (dfs_suspend s).state.suspended = true ∧
    (dfs_suspend (dfs_suspend s).state).state.suspended = true ∧
    sync_calls (dfs_suspend s).trace = [0, 1] ∧
    sync_calls (dfs_suspend (dfs_suspend s).state).trace = [0, 1] ∧
    (run [Op.enter_low_power, Op.enter_low_power] s).state.suspended = true ∧
    sync_calls (run [Op.enter_low_power, Op.enter_low_power] s).trace = [0, 1, 0, 1] ∧
    flush_count (run [Op.enter_low_power, Op.enter_low_power] s).trace = 2 := by
  obtain ⟨susp, act⟩ := s
  simp only at h
  subst h
  cases susp <;> exact ⟨rfl, rfl, rfl, rfl, rfl, rfl, rfl⟩

theorem double_suspend_flushes_twice_witness :
    (dfs_suspend (dfs_suspend { suspended := false, dfs_active := true }).state).state.suspended
      = true ∧
    flush_count (run [Op.enter_low_power, Op.enter_low_power]
      { suspended := false, dfs_active := true }).trace = 2 :=
  ⟨(double_suspend_flushes_twice { suspended := false, dfs_active := true } rfl).2.1,
   (double_suspend_flushes_twice { suspended := false, dfs_active := true } rfl).2.2.2.2.2.2⟩

/-- C7: for every sequence of attribute accesses and lifecycle events, from
every state, the recorded `sync_filesystems` calls are a concatenation of
pairs, `wait = 0` directly followed by `wait = 1`. -/
theorem sync_calls_are_paired (ops : List Op) (s : State) :
    flush_pairs (sync_calls (run ops s).trace) = true ∧
    ∃ n : Nat, sync_calls (run ops s).trace = (List.replicate n [(0 : Int), 1]).flatten :=
  ⟨run_flush_pairs ops s, run_sync_calls_replicate ops s⟩

/-- C8: once `suspended` is true, every operation other than leave-low-power
(enter-low-power, the reboot notifier with any code, the panic notifier, a
write to `active` with any text, and each of the three reads) leaves it true. -/
theorem suspended_cleared_only_by_resume (s : State) (op : Op)
    (hs : s.suspended = true) (hop : op ≠ Op.leave_low_power) :
    (step op s).state.suspended = true := by
  obtain ⟨susp, act⟩ := s
  simp only at hs
  subst hs
  cases op with
  | enter_low_power => cases act <;> rfl
  | leave_low_power => exact absurd rfl hop
  | reboot code =>
    show (dfs_notify_sys code _).state.suspended = true
    by_cases h : code = SYS_DOWN ∨ code = SYS_HALT
    · rw [dfs_notify_sys_down code h]
    · rw [dfs_notify_sys_other code h]
  | panic event => rfl
  | active_store buf count =>
    show (dfs_active_store buf count _).state.suspended = true
    rw [dfs_active_store_state]
  | active_show => rfl
  | version_show => rfl
  | suspended_show => rfl

theorem suspended_cleared_only_by_resume_witness :
    (step (Op.active_store "0" 1) { suspended := true, dfs_active := true }).state.suspended
      = true ∧
    (step (Op.reboot SYS_POWER_OFF) { suspended := true, dfs_active := false }).state.suspended
      = true :=
  ⟨suspended_cleared_only_by_resume { suspended := true, dfs_active := true }
      (Op.active_store "0" 1) rfl (by decide),
   suspended_cleared_only_by_resume { suspended := true, dfs_active := false }
      (Op.reboot SYS_POWER_OFF) rfl (by decide)⟩

/-- C9: a write to the `active` attribute never flushes: for every state and
every text, `dfs_active_store` makes no `sync_filesystems` call and leaves
`suspended` unchanged.  This includes switching `dfs_active` on while
`suspended` is already true, and switching it on after an enter-low-power
event that was ignored. -/
theorem active_store_never_flushes (buf : String) (count : Nat) (s : State) :
    sync_calls (dfs_active_store buf count s).trace = [] ∧
    flush_count (dfs_active_store buf count s).trace = 0 ∧
    (dfs_active_store buf count s).state.suspended = s.suspended ∧
    (dfs_active_store "1" count { suspended := true, dfs_active := false }).state =
      { suspended := true, dfs_active := true } ∧
    (run [Op.enter_low_power, Op.active_store "1" count] State.init).state =
      { suspended := false, dfs_active := true } ∧
    sync_calls (run [Op.enter_low_power, Op.active_store "1" count] State.init).trace = [] := by
  refine ⟨dfs_active_store_sync buf count s, ?_, ?_, ?_, ?_, ?_⟩
  · unfold flush_count
    rw [dfs_active_store_sync]
    rfl
  · rw [dfs_active_store_state]
  · rw [dfs_active_store_state]; rfl
  · rw [run_cons, run_cons]
    show (dfs_active_store "1" count _).state = _
    rw [dfs_active_store_state]; rfl
  · rw [run_cons, run_cons]
    simp only [sync_calls_append]
    have h2 : sync_calls (step (Op.active_store "1" count)
        (step Op.enter_low_power State.init).state).trace = [] := by
      show sync_calls ((dfs_active_store "1" count _).trace ++ []) = []
      rw [List.append_nil]
      exact dfs_active_store_sync _ _ _
    rw [h2]
    rfl

/-- C10: a failing `dfs_init` returns an error code but leaves the early
suspend, reboot and panic notifiers registered, both when the kobject cannot
be created and when the attribute group cannot be created; `dfs_exit`, the
other exit path, unregisters all three. -/
theorem dfs_init_failure_keeps_notifiers :
    (dfs_init false 0 Module.init).1 = -ENOMEM ∧
    (dfs_init false 0 Module.init).2.early_suspend_registered = true ∧
    (dfs_init false 0 Module.init).2.reboot_notifier_registered = true ∧
    (dfs_init false 0 Module.init).2.panic_notifier_registered = true ∧
    (dfs_init true (-ENOMEM) Module.init).1 = -ENOMEM ∧
    (dfs_init true (-ENOMEM) Module.init).2.early_suspend_registered = true ∧
    (dfs_init true (-ENOMEM) Module.init).2.reboot_notifier_registered = true ∧
    (dfs_init true (-ENOMEM) Module.init).2.panic_notifier_registered = true ∧
    (dfs_init true (-ENOMEM) Module.init).2.kobj_refcount = 0 ∧
    (dfs_exit (dfs_init true 0 Module.init).2).early_suspend_registered = false ∧
    (dfs_exit (dfs_init true 0 Module.init).2).reboot_notifier_registered = false ∧
    (dfs_exit (dfs_init true 0 Module.init).2).panic_notifier_registered = false := by
  decide

/-! ## Further auxiliary facts -/

theorem step_reboot (code : Nat) (s : State) :
    step (Op.reboot code) s =
      { ret := (), state := (dfs_notify_sys code s).state,
        trace := (dfs_notify_sys code s).trace ++ [] } := rfl

theorem step_active_store (buf : String) (count : Nat) (s : State) :
    step (Op.active_store buf count) s =
      { ret := (), state := (dfs_active_store buf count s).state,
        trace := (dfs_active_store buf count s).trace ++ [] } := rfl

/-- What one operation does to `suspended`. -/
theorem step_suspended (op : Op) (s : State) :
    (step op s).state.suspended =
      if op = Op.leave_low_power then false
      else if setting_event s.dfs_active op then true
      else s.suspended := by
  obtain ⟨susp, act⟩ := s
  cases op with
  | enter_low_power => cases act <;> rfl
  | leave_low_power => rfl
  | reboot code =>
    rw [step_reboot]
    by_cases h : code = SYS_DOWN ∨ code = SYS_HALT
    · rw [dfs_notify_sys_down code h]; simp [setting_event, h]
    · rw [dfs_notify_sys_other code h]; simp [setting_event, h]
  | panic event => rfl
  | active_store buf count =>
    rw [step_active_store, dfs_active_store_state]; rfl
  | active_show => rfl
  | version_show => rfl
  | suspended_show => rfl

/-- The `sync_filesystems` calls of one operation: one forced flush for a
setting event, none otherwise. -/
theorem step_sync_calls_setting (op : Op) (s : State) :
    sync_calls (step op s).trace = if setting_event s.dfs_active op then [0, 1] else [] := by
  obtain ⟨susp, act⟩ := s
  cases op with
  | enter_low_power => cases act <;> rfl
  | leave_low_power => rfl
  | reboot code =>
    rw [step_reboot]
    by_cases h : code = SYS_DOWN ∨ code = SYS_HALT
    · rw [dfs_notify_sys_down code h]; simp [setting_event, h, sync_calls]
    · rw [dfs_notify_sys_other code h]; simp [setting_event, h, sync_calls]
  | panic event => rfl
  | active_store buf count =>
    rw [step_active_store, List.append_nil, dfs_active_store_sync]; rfl
  | active_show => rfl
  | version_show => rfl
  | suspended_show => rfl

theorem flush_count_append (a b : List Effect) :
    flush_count (a ++ b) = flush_count a + flush_count b := by
  unfold flush_count
  rw [sync_calls_append, List.count_append]

theorem step_flush_count (op : Op) (s : State) :
    flush_count (step op s).trace = if setting_event s.dfs_active op then 1 else 0 := by
  unfold flush_count
  rw [step_sync_calls_setting]
  split <;> rfl

theorem run_flush_count (ops : List Op) (s : State) :
    flush_count (run ops s).trace = setting_count s ops := by
  induction ops generalizing s with
  | nil => rfl
  | cons op ops ih =>
    rw [run_cons]
    simp only [flush_count_append, step_flush_count, ih, setting_count]

theorem run_sync_calls_count (ops : List Op) (s : State) :
    sync_calls (run ops s).trace =
      (List.replicate (setting_count s ops) [(0 : Int), 1]).flatten := by
  induction ops generalizing s with
  | nil => rfl
  | cons op ops ih =>
    rw [run_cons]
    simp only [sync_calls_append, step_sync_calls_setting, ih, setting_count]
    split
    · rw [Nat.add_comm, List.replicate_succ]; rfl
    · simp

/-- When `suspended` is true at the end of a run, it was true at the start or
the run performed a forced flush. -/
theorem run_suspended_flush (ops : List Op) (s : State) :
    (run ops s).state.suspended = true →
      s.suspended = true ∨ 0 < flush_count (run ops s).trace := by
  induction ops generalizing s with
  | nil => intro h; exact Or.inl h
  | cons op ops ih =>
    intro h
    rw [run_cons] at h ⊢
    simp only [flush_count_append, step_flush_count]
    rcases ih (step op s).state h with h1 | h1
    · rw [step_suspended] at h1
      by_cases hl : op = Op.leave_low_power
      · simp [hl] at h1
      · by_cases hset : setting_event s.dfs_active op = true
        · right; simp [hset]
        · simp only [hl, hset, if_false] at h1
          exact Or.inl h1
    · right; omega

/-- Where an element of a list that ends in `a` can sit: it is `a` itself, or
`a` is the last element of what follows it. -/
theorem split_last (l pre post : List Op) (a op : Op) (h : l ++ [a] = pre ++ op :: post) :
    (post = [] ∧ l = pre ∧ a = op) ∨ ∃ mid, post = mid ++ [a] ∧ l = pre ++ op :: mid := by
  rcases List.eq_nil_or_concat post with hp | ⟨mid, b, hp⟩
  · subst hp
    have h2 : l ++ [a] = pre ++ [op] := h
    have h3 := List.append_inj' h2 rfl
    exact Or.inl ⟨rfl, h3.1, by simpa using h3.2⟩
  · rw [List.concat_eq_append] at hp
    subst hp
    have h2 : l ++ [a] = (pre ++ op :: mid) ++ [b] := by
      rw [h]; simp
    have h3 := List.append_inj' h2 rfl
    have hb : a = b := by simpa using h3.2
    subst hb
    exact Or.inr ⟨mid, rfl, h3.1⟩

/-! ### Facts about the parser -/

theorem isspace_not_nul (c : Char) (h : isspace c = true) : (c.toNat != 0) = true := by
  unfold isspace at h
  simp only [Bool.or_eq_true, Bool.and_eq_true, decide_eq_true_eq, beq_iff_eq] at h
  simp only [bne_iff_ne, ne_eq]
  omega

theorem isdigit_not_nul (c : Char) (h : isdigit c = true) : (c.toNat != 0) = true := by
  unfold isdigit at h
  simp only [Bool.and_eq_true, decide_eq_true_eq] at h
  simp only [bne_iff_ne, ne_eq]
  omega

theorem isdigit_not_space (c : Char) (h : isdigit c = true) : isspace c = false := by
  unfold isdigit at h
  simp only [Bool.and_eq_true, decide_eq_true_eq] at h
  unfold isspace
  simp only [Bool.or_eq_false_iff, Bool.and_eq_false_iff, decide_eq_false_iff_not,
    beq_eq_false_iff_ne, ne_eq]
  omega

theorem takeWhile_append_all (p : Char → Bool) (a b : List Char) (h : ∀ c ∈ a, p c = true) :
    (a ++ b).takeWhile p = a ++ b.takeWhile p := by
  induction a with
  | nil => rfl
  | cons c cs ih =>
    have hc : p c = true := h c (List.mem_cons_self c cs)
    simp only [List.cons_append, List.takeWhile_cons, hc, if_true]
    rw [ih (fun d hd => h d (List.mem_cons_of_mem c hd))]

theorem dropWhile_append_all (p : Char → Bool) (a b : List Char) (h : ∀ c ∈ a, p c = true) :
    (a ++ b).dropWhile p = b.dropWhile p := by
  induction a with
  | nil => rfl
  | cons c cs ih =>
    have hc : p c = true := h c (List.mem_cons_self c cs)
    simp only [List.cons_append, List.dropWhile_cons, hc, if_true]
    exact ih (fun d hd => h d (List.mem_cons_of_mem c hd))

/-- The C string of a text whose first character is no digit starts with no
digit either. -/
theorem c_str_head_not_digit (rest : List Char)
    (h : ∀ c ∈ rest.head?, isdigit c = false) : ∀ c ∈ (c_str rest).head?, isdigit c = false := by
  cases rest with
  | nil => intro c hc; simp [c_str] at hc
  | cons r rs =>
    intro c hc
    have hr : isdigit r = false := h r (by simp)
    unfold c_str at hc
    rw [List.takeWhile_cons] at hc
    split at hc
    · simp only [List.head?_cons, Option.mem_def, Option.some.injEq] at hc
      rw [← hc]; exact hr
    · simp at hc

/-- The digit loop reads a run of digits that is followed by no digit as its
decimal value, modulo `2 ^ 64`. -/
theorem simple_strtoull_digits (ds rest : List Char) (hds : ∀ c ∈ ds, isdigit c = true)
    (hrest : ∀ c ∈ rest.head?, isdigit c = false) (acc : Nat) :
    simple_strtoull (ds ++ rest) (acc % 2 ^ 64) =
      ds.foldl (fun acc c => acc * 10 + (c.toNat - 48)) acc % 2 ^ 64 := by
  induction ds generalizing acc with
  | nil =>
    cases rest with
    | nil => rfl
    | cons r rs =>
      have hr : isdigit r = false := hrest r (by simp)
      simp [simple_strtoull, hr]
  | cons d ds ih =>
    have hd : isdigit d = true := hds d (List.mem_cons_self d ds)
    simp only [List.cons_append, simple_strtoull, hd, if_true, List.foldl_cons]
    have hmod : (acc % 2 ^ 64 * 10 + (d.toNat - 48)) % 2 ^ 64 =
        (acc * 10 + (d.toNat - 48)) % 2 ^ 64 := by
      omega
    rw [hmod]
    exact ih (fun c hc => hds c (List.mem_cons_of_mem d hc)) (acc * 10 + (d.toNat - 48))

/-- What `sscanf` reads from white space, then digits, then something that
does not start with a digit: the value of the digits, truncated to 32 bits. -/
theorem sscanf_u_number (buf : String) (ws ds rest : List Char)
    (hbuf : buf.toList = ws ++ ds ++ rest)
    (hws : ∀ c ∈ ws, isspace c = true)
    (hds : ∀ c ∈ ds, isdigit c = true) (hne : ds ≠ [])
    (hrest : ∀ c ∈ rest.head?, isdigit c = false) :
    sscanf_u buf = some (decimal_value ds % 2 ^ 32) := by
  unfold sscanf_u
  rw [hbuf]
  have h1 : c_str (ws ++ ds ++ rest) = ws ++ (ds ++ c_str rest) := by
    unfold c_str
    rw [List.append_assoc, takeWhile_append_all _ ws _ (fun c hc => isspace_not_nul c (hws c hc)),
      takeWhile_append_all _ ds _ (fun c hc => isdigit_not_nul c (hds c hc))]
  rw [h1]
  unfold skip_spaces
  rw [dropWhile_append_all _ ws _ hws]
  cases ds with
  | nil => exact absurd rfl hne
  | cons d ds2 =>
    have hd : isdigit d = true := hds d (List.mem_cons_self d ds2)
    have hsp : isspace d = false := isdigit_not_space d hd
    simp only [List.cons_append, List.dropWhile_cons, hsp, hd, if_true, Bool.false_eq_true,
      if_false]
    have h2 := simple_strtoull_digits (d :: ds2) (c_str rest) hds
      (c_str_head_not_digit rest hrest) 0
    simp only [Nat.zero_mod, List.cons_append] at h2
    unfold simple_strtoul decimal_value
    rw [h2]
    have hb : BITS_PER_LONG = 32 := rfl
    rw [hb]
    congr 1
    omega

/-- From white space followed by something that starts with neither white
space nor a digit, `sscanf` reads no number. -/
theorem sscanf_u_no_number (buf : String) (ws rest : List Char)
    (hbuf : buf.toList = ws ++ rest)
    (hws : ∀ c ∈ ws, isspace c = true)
    (hrest : ∀ c ∈ rest.head?, isdigit c = false ∧ isspace c = false) :
    sscanf_u buf = none := by
  unfold sscanf_u
  rw [hbuf]
  have h1 : c_str (ws ++ rest) = ws ++ c_str rest := by
    unfold c_str
    rw [takeWhile_append_all _ ws _ (fun c hc => isspace_not_nul c (hws c hc))]
  rw [h1]
  unfold skip_spaces
  rw [dropWhile_append_all _ ws _ hws]
  cases rest with
  | nil => rfl
  | cons r rs =>
    have hr := hrest r (by simp)
    unfold c_str
    rw [List.takeWhile_cons]
    by_cases hz : (r.toNat != 0) = true
    · simp only [hz, if_true, List.dropWhile_cons, hr.2, hr.1, Bool.false_eq_true, if_false]
    · simp only [hz, if_false, List.dropWhile_nil, Bool.false_eq_true]

/-! ## Further properties of the driver -/

/-- C11: for every state and every reboot code that is neither `SYS_DOWN` nor
`SYS_HALT`, `dfs_notify_sys` leaves `suspended` and `dfs_active` unchanged,
performs no effect at all (so no flush), and returns `NOTIFY_DONE`. -/
theorem notify_sys_ignores_other_codes (code : Nat) (s : State)
    (hdown : code ≠ SYS_DOWN) (hhalt : code ≠ SYS_HALT) :
    (dfs_notify_sys code s).state.suspended = s.suspended ∧
    (dfs_notify_sys code s).state.dfs_active = s.dfs_active ∧
    (dfs_notify_sys code s).trace = [] ∧
    sync_calls (dfs_notify_sys code s).trace = [] ∧
    (dfs_notify_sys code s).ret = NOTIFY_DONE := by
  have h : ¬ (code = SYS_DOWN ∨ code = SYS_HALT) := by
    rintro (h | h)
    · exact hdown h
    · exact hhalt h
  rw [dfs_notify_sys_other code h]
  exact ⟨rfl, rfl, rfl, rfl, rfl⟩

theorem notify_sys_ignores_other_codes_witness :
    (dfs_notify_sys SYS_POWER_OFF { suspended := false, dfs_active := true }).state.suspended
      = false ∧
    sync_calls (dfs_notify_sys SYS_POWER_OFF { suspended := false, dfs_active := true }).trace
      = [] :=
  ⟨(notify_sys_ignores_other_codes SYS_POWER_OFF
      { suspended := false, dfs_active := true } (by decide) (by decide)).1,
   (notify_sys_ignores_other_codes SYS_POWER_OFF
      { suspended := false, dfs_active := true } (by decide) (by decide)).2.2.2.1⟩

/-- C14: `dfs_active` is written only by `dfs_active_store`: in every state
each lifecycle handler (`dfs_suspend`, `dfs_resume`, `dfs_panic_event`,
`dfs_notify_sys` with any code) and each attribute read (`dfs_active_show`,
`dfs_version_show`, `dfs_suspended_show`) leaves it unchanged; and both flags
are false in the initial state. -/
theorem active_written_only_by_store (s : State) (event code : Nat) :
    (dfs_suspend s).state.dfs_active = s.dfs_active ∧
    (dfs_resume s).state.dfs_active = s.dfs_active ∧
    (dfs_panic_event event s).state.dfs_active = s.dfs_active ∧
    (dfs_notify_sys code s).state.dfs_active = s.dfs_active ∧
    (dfs_active_show s).state.dfs_active = s.dfs_active ∧
    (dfs_version_show s).state.dfs_active = s.dfs_active ∧
    (dfs_suspended_show s).state.dfs_active = s.dfs_active ∧
    State.init.dfs_active = false ∧ State.init.suspended = false := by
  refine ⟨?_, rfl, rfl, ?_, rfl, rfl, rfl, rfl, rfl⟩
  · obtain ⟨susp, act⟩ := s
    cases act <;> rfl
  · by_cases h : code = SYS_DOWN ∨ code = SYS_HALT
    · rw [dfs_notify_sys_down code h]
    · rw [dfs_notify_sys_other code h]

/-- C12, as stated, fails: in the enter-low-power transition the store of
`true` to `suspended` is the third effect and `sync_filesystems(0)` the
fourth, so `suspended` becomes true before any flush is started; this is so
also on the first flush after the initial state. -/
theorem suspend_stores_before_flush :
    (dfs_suspend { suspended := false, dfs_active := true }).trace =
      [Effect.mutex_lock, Effect.load_dfs_active true, Effect.store_suspended true,
        Effect.sync_filesystems 0, Effect.sync_filesystems 1, Effect.mutex_unlock] ∧
    flush_started_before_store false
      (dfs_suspend { suspended := false, dfs_active := true }).trace = false ∧
    flush_started_before_store false
      (run [Op.active_store "1" 1, Op.enter_low_power] State.init).trace = false := by
  decide

/-- C12, amended: in every state reached from the initial state `suspended`
is true only if a forced flush has been performed; a transition that turns
`suspended` from false to true performs one forced flush itself; and within
the enter-low-power, panic and halt transitions the store of `true` to
`suspended` comes first and the flush is started directly after it. -/
theorem suspended_implies_flush_in_same_transition (ops : List Op) (op : Op) (s : State)
    (event code : Nat) :
    ((run ops State.init).state.suspended = true →
      0 < flush_count (run ops State.init).trace) ∧
    (s.suspended = false → (step op s).state.suspended = true →
      sync_calls (step op s).trace = [0, 1]) ∧
    (s.dfs_active = true → (dfs_suspend s).trace =
      [Effect.mutex_lock, Effect.load_dfs_active true, Effect.store_suspended true,
        Effect.sync_filesystems 0, Effect.sync_filesystems 1, Effect.mutex_unlock]) ∧
    (dfs_panic_event event s).trace =
      [Effect.store_suspended true, Effect.sync_filesystems 0, Effect.sync_filesystems 1] ∧
    ((code = SYS_DOWN ∨ code = SYS_HALT) → (dfs_notify_sys code s).trace =
      [Effect.store_suspended true, Effect.sync_filesystems 0, Effect.sync_filesystems 1]) := by
  refine ⟨?_, ?_, ?_, rfl, ?_⟩
  · intro h
    rcases run_suspended_flush ops State.init h with h1 | h1
    · exact absurd h1 (by decide)
    · exact h1
  · intro hs h
    rw [step_suspended] at h
    rw [step_sync_calls_setting]
    by_cases hl : op = Op.leave_low_power
    · simp [hl] at h
    · by_cases hset : setting_event s.dfs_active op = true
      · simp [hset]
      · simp only [hl, hset, if_false] at h
        rw [hs] at h
        exact absurd h (by decide)
  · intro h
    obtain ⟨susp, act⟩ := s
    simp only at h
    subst h
    rfl
  · intro h
    rw [dfs_notify_sys_down code h]

theorem suspended_implies_flush_in_same_transition_witness :
    0 < flush_count (run [Op.active_store "1" 1, Op.enter_low_power] State.init).trace ∧
    sync_calls (step (Op.panic 0) State.init).trace = [0, 1] ∧
    (dfs_suspend { suspended := false, dfs_active := true }).trace =
      [Effect.mutex_lock, Effect.load_dfs_active true, Effect.store_suspended true,
        Effect.sync_filesystems 0, Effect.sync_filesystems 1, Effect.mutex_unlock] ∧
    (dfs_notify_sys SYS_DOWN State.init).trace =
      [Effect.store_suspended true, Effect.sync_filesystems 0, Effect.sync_filesystems 1] :=
  have w := suspended_implies_flush_in_same_transition
    [Op.active_store "1" 1, Op.enter_low_power] (Op.panic 0) State.init 0 SYS_DOWN
  have w2 := suspended_implies_flush_in_same_transition
    [] Op.enter_low_power { suspended := false, dfs_active := true } 0 SYS_DOWN
  ⟨w.1 (by decide), w.2.1 rfl rfl, w2.2.2.1 rfl, w.2.2.2.2 (Or.inl rfl)⟩

/-- C13: for every sequence of operations run from the initial state, the
number of forced flushes equals the number of setting events (enter-low-power
processed while `dfs_active` is true, panic, reboot with `SYS_DOWN` or
`SYS_HALT`), every flush being `sync_filesystems(0)` followed by
`sync_filesystems(1)`; leave-low-power events, writes to `active` and
attribute reads are no setting events. -/
theorem flush_count_is_setting_events (ops : List Op) (active : Bool) (buf : String)
    (count : Nat) :
    flush_count (run ops State.init).trace = setting_count State.init ops ∧
    sync_calls (run ops State.init).trace =
      (List.replicate (setting_count State.init ops) [(0 : Int), 1]).flatten ∧
    setting_event active Op.leave_low_power = false ∧
    setting_event active (Op.active_store buf count) = false ∧
    setting_event active Op.active_show = false ∧
    setting_event active Op.version_show = false ∧
    setting_event active Op.suspended_show = false :=
  ⟨run_flush_count ops State.init, run_sync_calls_count ops State.init,
    rfl, rfl, rfl, rfl, rfl⟩

theorem flush_count_is_setting_events_witness :
    flush_count (run [Op.enter_low_power] State.init).trace = 0 ∧
    (run [Op.enter_low_power] State.init).state.suspended = false ∧
    flush_count (run [Op.enter_low_power, Op.active_store "1" 1, Op.enter_low_power]
      State.init).trace = 1 ∧
    (run [Op.enter_low_power, Op.active_store "1" 1, Op.enter_low_power]
      State.init).state.suspended = true ∧
    flush_count (run [Op.enter_low_power, Op.active_store "1" 1, Op.enter_low_power,
      Op.leave_low_power] State.init).trace = 1 ∧
    (run [Op.enter_low_power, Op.active_store "1" 1, Op.enter_low_power,
      Op.leave_low_power] State.init).state.suspended = false ∧
    flush_count (run [Op.enter_low_power, Op.active_store "1" 1, Op.enter_low_power,
      Op.leave_low_power, Op.panic 0] State.init).trace = 2 ∧
    (run [Op.enter_low_power, Op.active_store "1" 1, Op.enter_low_power,
      Op.leave_low_power, Op.panic 0] State.init).state.suspended = true :=
  ⟨(flush_count_is_setting_events [Op.enter_low_power] false "" 0).1.trans (by decide),
   by decide,
   (flush_count_is_setting_events [Op.enter_low_power, Op.active_store "1" 1,
      Op.enter_low_power] false "" 0).1.trans (by decide),
   by decide,
   (flush_count_is_setting_events [Op.enter_low_power, Op.active_store "1" 1,
      Op.enter_low_power, Op.leave_low_power] false "" 0).1.trans (by decide),
   by decide,
   (flush_count_is_setting_events [Op.enter_low_power, Op.active_store "1" 1,
      Op.enter_low_power, Op.leave_low_power, Op.panic 0] false "" 0).1.trans (by decide),
   by decide⟩

/-- C15, as stated, fails: the read of the `active` attribute does not produce
the text `1` (or `0`) but that digit followed by a newline, two characters. -/
theorem active_show_text_has_newline :
    (dfs_active_show (dfs_active_store "1" 1 State.init).state).ret.buf ≠ "1" ∧
    (dfs_active_show (dfs_active_store "1" 1 State.init).state).ret.buf = "1\n" ∧
    (dfs_active_show (dfs_active_store "1" 1 State.init).state).ret.len = 2 ∧
    (dfs_active_show (dfs_active_store "0" 1 State.init).state).ret.buf ≠ "0" ∧
    (dfs_active_show (dfs_active_store "0" 1 State.init).state).ret.buf = "0\n" := by
  decide

/-- C15, amended: after a write of `1` to the `active` attribute the read
produces the digit 1 followed by a newline, after a write of `0` the digit 0
followed by a newline; in every state the read produces the first text if
`dfs_active` is true and the second otherwise, returns the length 2, changes
no state, and the text read back by `sscanf` is the number written. -/
theorem active_store_show_round_trip (s : State) (count : Nat) :
    (dfs_active_show (dfs_active_store "1" count s).state).ret.buf = "1\n" ∧
    (dfs_active_show (dfs_active_store "0" count s).state).ret.buf = "0\n" ∧
    (dfs_active_show s).ret.buf = (if s.dfs_active then "1\n" else "0\n") ∧
    ((dfs_active_show s).ret.buf = "1\n" ↔ s.dfs_active = true) ∧
    (dfs_active_show s).ret.len = 2 ∧
    (dfs_active_show s).state = s ∧
    sscanf_u (dfs_active_show s).ret.buf = some (if s.dfs_active then 1 else 0) := by
  refine ⟨?_, ?_, ?_, ?_, ?_, rfl, ?_⟩
  · have h : (dfs_active_store "1" count s).state.dfs_active = true := by
      rw [dfs_active_store_state]; rfl
    generalize (dfs_active_store "1" count s).state = t at h
    obtain ⟨susp, act⟩ := t
    simp only at h
    subst h
    cases susp <;> decide
  · have h : (dfs_active_store "0" count s).state.dfs_active = false := by
      rw [dfs_active_store_state]; rfl
    generalize (dfs_active_store "0" count s).state = t at h
    obtain ⟨susp, act⟩ := t
    simp only at h
    subst h
    cases susp <;> decide
  · obtain ⟨susp, act⟩ := s
    cases susp <;> cases act <;> decide
  · obtain ⟨susp, act⟩ := s
    cases susp <;> cases act <;> decide
  · obtain ⟨susp, act⟩ := s
    cases susp <;> cases act <;> decide
  · obtain ⟨susp, act⟩ := s
    cases susp <;> cases act <;> decide

/-- C16, as stated, fails: the text of the `suspended` attribute is not
`Suspended: 1` (or `Suspended: 0`); it starts with `DFS ` and ends with a
newline. -/
theorem suspended_show_text_differs :
    (dfs_suspended_show { suspended := true, dfs_active := false }).ret.buf
      ≠ "Suspended: 1" ∧
    (dfs_suspended_show { suspended := true, dfs_active := false }).ret.buf
      = "DFS Suspended: 1\n" ∧
    (dfs_suspended_show { suspended := false, dfs_active := false }).ret.buf
      ≠ "Suspended: 0" ∧
    (dfs_suspended_show { suspended := false, dfs_active := false }).ret.buf
      = "DFS Suspended: 0\n" := by
  decide

/-- C16, amended: in every state the read of the `suspended` attribute
produces the text `DFS Suspended: 1` followed by a newline when `suspended` is
true and `DFS Suspended: 0` followed by a newline when it is false, returns
the length of the text it wrote (17), and changes no state. -/
theorem suspended_show_text (s : State) :
    (dfs_suspended_show s).ret.buf =
      (if s.suspended then "DFS Suspended: 1\n" else "DFS Suspended: 0\n") ∧
    (dfs_suspended_show s).ret.len = ((dfs_suspended_show s).ret.buf.length : Int) ∧
    (dfs_suspended_show s).ret.len = 17 ∧
    (dfs_suspended_show s).state = s := by
  obtain ⟨susp, act⟩ := s
  cases susp <;> cases act <;> decide

/-- C18: in every state `dfs_suspend` and `dfs_resume` take `fsync_mutex` as
their first effect and release it as their last, once each, on the active and
on the inactive branch; the test of `dfs_active`, the store to `suspended` and
both flush phases lie between the two; `dfs_panic_event` and `dfs_notify_sys`
never take or release the mutex. -/
theorem lock_discipline (s : State) (event code : Nat) :
    (dfs_resume s).trace =
      [Effect.mutex_lock, Effect.store_suspended false, Effect.mutex_unlock] ∧
    (dfs_suspend s).trace =
      (if s.dfs_active then
        [Effect.mutex_lock, Effect.load_dfs_active true, Effect.store_suspended true,
          Effect.sync_filesystems 0, Effect.sync_filesystems 1, Effect.mutex_unlock]
       else [Effect.mutex_lock, Effect.load_dfs_active false, Effect.mutex_unlock]) ∧
    (dfs_suspend s).trace.head? = some Effect.mutex_lock ∧
    (dfs_suspend s).trace.getLast? = some Effect.mutex_unlock ∧
    (dfs_suspend s).trace.count Effect.mutex_lock = 1 ∧
    (dfs_suspend s).trace.count Effect.mutex_unlock = 1 ∧
    (dfs_resume s).trace.count Effect.mutex_lock = 1 ∧
    (dfs_resume s).trace.count Effect.mutex_unlock = 1 ∧
    Effect.mutex_lock ∉ (dfs_panic_event event s).trace ∧
    Effect.mutex_unlock ∉ (dfs_panic_event event s).trace ∧
    Effect.mutex_lock ∉ (dfs_notify_sys code s).trace ∧
    Effect.mutex_unlock ∉ (dfs_notify_sys code s).trace := by
  have hp : (dfs_panic_event event s).trace =
      [Effect.store_suspended true, Effect.sync_filesystems 0, Effect.sync_filesystems 1] := rfl
  have hn : (dfs_notify_sys code s).trace =
      [Effect.store_suspended true, Effect.sync_filesystems 0, Effect.sync_filesystems 1] ∨
      (dfs_notify_sys code s).trace = [] := by
    by_cases h : code = SYS_DOWN ∨ code = SYS_HALT
    · left; rw [dfs_notify_sys_down code h]
    · right; rw [dfs_notify_sys_other code h]
  have hsus : (dfs_suspend s).trace =
      (if s.dfs_active then
        [Effect.mutex_lock, Effect.load_dfs_active true, Effect.store_suspended true,
          Effect.sync_filesystems 0, Effect.sync_filesystems 1, Effect.mutex_unlock]
       else [Effect.mutex_lock, Effect.load_dfs_active false, Effect.mutex_unlock]) := by
    obtain ⟨susp, act⟩ := s
    cases act <;> rfl
  have hres : (dfs_resume s).trace =
      [Effect.mutex_lock, Effect.store_suspended false, Effect.mutex_unlock] := rfl
  refine ⟨hres, hsus, ?_, ?_, ?_, ?_, ?_, ?_, ?_, ?_, ?_, ?_⟩
  · rw [hsus]; cases s.dfs_active <;> decide
  · rw [hsus]; cases s.dfs_active <;> decide
  · rw [hsus]; cases s.dfs_active <;> decide
  · rw [hsus]; cases s.dfs_active <;> decide
  · rw [hres]; decide
  · rw [hres]; decide
  · rw [hp]; decide
  · rw [hp]; decide
  · rcases hn with h | h <;> rw [h] <;> decide
  · rcases hn with h | h <;> rw [h] <;> decide

/-- C20: for every sequence of operations run from the initial state,
`suspended` is true at the end if and only if the sequence contains a setting
event (enter-low-power processed while `dfs_active` is true, panic, or reboot
with `SYS_DOWN` or `SYS_HALT`) with no leave-low-power event after it. -/
theorem suspended_closed_form (ops : List Op) :
    (run ops State.init).state.suspended = true ↔
      ∃ pre op post, ops = pre ++ op :: post ∧
        setting_event (run pre State.init).state.dfs_active op = true ∧
        Op.leave_low_power ∉ post := by
  induction ops using List.reverseRecOn with
  | nil =>
    constructor
    · intro h; exact absurd h (by decide)
    · rintro ⟨pre, op, post, h, _⟩
      cases pre <;> simp at h
  | append_singleton l a ih =>
    rw [run_append_state, run_singleton_state, step_suspended]
    by_cases hl : a = Op.leave_low_power
    · subst hl
      simp only [if_true]
      constructor
      · intro h; exact absurd h (by decide)
      · rintro ⟨pre, op, post, h, hset, hpost⟩
        rcases split_last l pre post _ op h with ⟨_, _, hop⟩ | ⟨mid, hmid, _⟩
        · subst hop
          simp [setting_event] at hset
        · subst hmid
          exact absurd (by simp) hpost
    · by_cases hset : setting_event (run l State.init).state.dfs_active a = true
      · simp only [hl, hset, if_true, if_false, true_iff]
        exact ⟨l, a, [], rfl, hset, by simp⟩
      · simp only [hl, hset, if_false, Bool.false_eq_true]
        rw [ih]
        constructor
        · rintro ⟨pre, op, post, h, hs, hpost⟩
          refine ⟨pre, op, post ++ [a], by rw [h]; simp, hs, ?_⟩
          intro hmem
          rcases List.mem_append.mp hmem with h1 | h1
          · exact hpost h1
          · have h2 : Op.leave_low_power = a := by simpa using h1
            exact hl h2.symm
        · rintro ⟨pre, op, post, h, hs, hpost⟩
          rcases split_last l pre post a op h with ⟨_, hpre, hop⟩ | ⟨mid, hmid, hlm⟩
          · subst hpre; subst hop
            exact absurd hs hset
          · subst hmid
            exact ⟨pre, op, mid, hlm, hs, fun hm => hpost (List.mem_append.mpr (Or.inl hm))⟩

/-- C19: `dfs_active_store` decides on the number `sscanf` reads from the
start of the text.  For a text made of optional white space, a run of decimal
digits and anything that does not go on with a digit, the number read is the
value of the digits (truncated to 32 bits): value 1 sets `dfs_active`, value 0
clears it, whatever follows the digits.  When the number read is neither 1 nor
0, or no number can be read, `dfs_active` is left unchanged. -/
theorem active_store_decides_on_leading_number (buf : String) (count : Nat) (s : State)
    (ws ds rest : List Char)
    (hbuf : buf.toList = ws ++ ds ++ rest)
    (hws : ∀ c ∈ ws, isspace c = true)
    (hds : ∀ c ∈ ds, isdigit c = true) (hne : ds ≠ [])
    (hrest : ∀ c ∈ rest.head?, isdigit c = false) :
    sscanf_u buf = some (decimal_value ds % 2 ^ 32) ∧
    (decimal_value ds = 1 → (dfs_active_store buf count s).state.dfs_active = true) ∧
    (decimal_value ds = 0 → (dfs_active_store buf count s).state.dfs_active = false) ∧
    (decimal_value ds % 2 ^ 32 ≠ 1 → decimal_value ds % 2 ^ 32 ≠ 0 →
      (dfs_active_store buf count s).state.dfs_active = s.dfs_active) ∧
    (∀ (other : String) (n : Nat), sscanf_u other = some n → n ≠ 1 → n ≠ 0 →
      (dfs_active_store other count s).state.dfs_active = s.dfs_active) ∧
    (∀ other : String, sscanf_u other = none →
      (dfs_active_store other count s).state.dfs_active = s.dfs_active) ∧
    (∀ (other : String) (ws2 rest2 : List Char), other.toList = ws2 ++ rest2 →
      (∀ c ∈ ws2, isspace c = true) →
      (∀ c ∈ rest2.head?, isdigit c = false ∧ isspace c = false) →
      (dfs_active_store other count s).state.dfs_active = s.dfs_active) ∧
    (dfs_active_store "1\n" count s).state.dfs_active = true ∧
    (dfs_active_store "01" count s).state.dfs_active = true ∧
    (dfs_active_store " 1" count s).state.dfs_active = true ∧
    (dfs_active_store "1abc" count s).state.dfs_active = true := by
  have hscan := sscanf_u_number buf ws ds rest hbuf hws hds hne hrest
  refine ⟨hscan, ?_, ?_, ?_, ?_, ?_, ?_, ?_, ?_, ?_, ?_⟩
  · intro h
    rw [dfs_active_store_state, hscan, h]; rfl
  · intro h
    rw [dfs_active_store_state, hscan, h]; rfl
  · intro h1 h0
    rw [dfs_active_store_state, hscan]
    simp only [Option.some.injEq, h1, h0, if_false]
  · intro other n hn h1 h0
    rw [dfs_active_store_state, hn]
    simp [h1, h0]
  · intro other hn
    rw [dfs_active_store_state, hn]
    simp
  · intro other ws2 rest2 ho hw hr
    rw [dfs_active_store_state, sscanf_u_no_number other ws2 rest2 ho hw hr]
    simp
  · rw [dfs_active_store_state]; rfl
  · rw [dfs_active_store_state]; rfl
  · rw [dfs_active_store_state]; rfl
  · rw [dfs_active_store_state]; rfl

theorem active_store_decides_on_leading_number_witness :
    sscanf_u " 01abc" = some 1 ∧
    (dfs_active_store " 01abc" 6 State.init).state.dfs_active = true ∧
    (dfs_active_store "7" 1 State.init).state.dfs_active = false ∧
    (dfs_active_store " x1" 3 { suspended := false, dfs_active := true }).state.dfs_active
      = true :=
  have w := active_store_decides_on_leading_number " 01abc" 6 State.init
    " ".toList "01".toList "abc".toList rfl (by decide) (by decide) (by decide) (by decide)
  have w2 := active_store_decides_on_leading_number " 01abc" 3
    { suspended := false, dfs_active := true }
    " ".toList "01".toList "abc".toList rfl (by decide) (by decide) (by decide) (by decide)
  ⟨w.1, w.2.1 (by decide), w.2.2.2.2.1 "7" 7 (by decide) (by decide) (by decide),
   w2.2.2.2.2.2.2.1 " x1" " ".toList "x1".toList rfl (by decide) (by decide)⟩

theorem suspended_closed_form_witness :
    (run [Op.active_store "1" 1, Op.enter_low_power, Op.active_show] State.init).state.suspended
      = true ∧
    ¬ (run [Op.panic 0, Op.leave_low_power, Op.enter_low_power] State.init).state.suspended
      = true :=
  ⟨(suspended_closed_form [Op.active_store "1" 1, Op.enter_low_power, Op.active_show]).mpr
     ⟨[Op.active_store "1" 1], Op.enter_low_power, [Op.active_show], rfl, by decide, by decide⟩,
   by decide⟩

end DynamicFsync
